import Mathlib

/-!
Shallow embedding of the akeyless-csi-provider core: configuration
resolution (internal/config: `parseParameters`, `Parse`, `validate`,
`detectAccessType`, the authentication helpers and the Universal-Identity
rotation loop) and the secret retrieval / caching engine
(internal/provider: `loadItems`, `GetSecretByType`, `GetStaticSecret`,
`GetCertificate`, `GetRotatedSecret`, `HandleMountRequest`).

Remote gateway interactions are modelled as oracles (`Gateway`, `AuthEnv`):
a function from the request data to the response the remote side returns.
Every provider operation additionally reports the list of remote calls it
performed, so that cache-freshness claims about "no remote call" are
statements about a computable trace.  Wall-clock time is an explicit `Nat`
of seconds.  The process-wide mutable auth token guarded by the RW-lock is
modelled as an explicit `AuthState` value threaded through the functions.
-/

namespace Akeyless

/-! ## Data model (internal/config/config.go) -/

/-- One entry of the `objects` attribute (config.Secret). -/
structure Secret where
  fileName : String
  secretPath : String
  /-- Deprecated type hint; the source ignores it. -/
  secretType : String
  /-- Opaque argument map (values modelled as strings). -/
  secretArgs : List (String × String)
  deriving Repr, DecidableEq

/-- Pod metadata carried through for observability (config.PodInfo). -/
structure PodInfo where
  name : String
  uid : String
  podNamespace : String
  serviceAccountName : String
  deriving Repr, DecidableEq

/-- config.Parameters: the merged attribute set of a mount request. -/
structure Parameters where
  akeylessGatewayURL : String
  vaultKubernetesMountPath : String
  secrets : List Secret
  podInfo : PodInfo
  akeylessAccessType : String
  akeylessAccessID : String
  akeylessAccessKey : String
  akeylessAzureObjectID : String
  akeylessGCPAudience : String
  akeylessUIDInitToken : String
  akeylessK8sAuthConfigName : String
  deriving Repr, DecidableEq

/-- config.Config: parameters plus the remaining proto fields consumed. -/
structure Config where
  parameters : Parameters
  targetPath : String
  /-- os.FileMode, a 32-bit unsigned value parsed from the permission string. -/
  filePermission : Nat
  deriving Repr, DecidableEq

/-- The access-type constants of config.go. -/
def AccessKey : String := "access_key"

def AWSIAM : String := "aws_iam"

def AzureAD : String := "azure_ad"

def GCP : String := "gcp"

def UniversalIdentity : String := "universal_identity"

def K8S : String := "k8s"

/-- Environment variable names (config.go constants). -/
def AkeylessURL : String := "AKEYLESS_URL"

def AkeylessAccessTypeVar : String := "AKEYLESS_ACCESS_TYPE"

def AkeylessAccessIDVar : String := "AKEYLESS_ACCESS_ID"

def AkeylessAccessKeyVar : String := "AKEYLESS_ACCESS_KEY"

def CredentialsVar : String := "CREDENTIALS"

def AkeylessAzureObjectIDVar : String := "AKEYLESS_AZURE_OBJECT_ID"

def AkeylessGCPAudienceVar : String := "AKEYLESS_GCP_AUDIENCE"

def AkeylessUIDInitTokenVar : String := "AKEYLESS_UID_INIT_TOKEN"

def AkeylessK8sAuthConfigNameVar : String := "AKEYLESS_K8S_AUTH_CONFIG_NAME"

/-! ## Small map helpers: Go string maps as association lists. -/

/-- First value bound to key `k`, as Go's `m[k]` comma-ok form. -/
def lookupPair {α : Type} : List (String × α) → String → Option α
  | [], _ => none
  | (k', v) :: rest, k => if k' = k then some v else lookupPair rest k

/-- Go's `m[k]` for a `map[string]string`: the zero value "" when absent. -/
def lookupStr (m : List (String × String)) (k : String) : String :=
  (lookupPair m k).getD ""

/-- Overwrite-or-append update, Go's `m[k] = v`. -/
def insertPair {α : Type} : List (String × α) → String → α → List (String × α)
  | [], k, v => [(k, v)]
  | (k', v') :: rest, k, v =>
    if k' = k then (k, v) :: rest else (k', v') :: insertPair rest k v

/-- The `if x == "" \x7b x = y \x7d` fallback pattern of parseParameters. -/
def fallback (v w : String) : String := if v = "" then w else v

/-! ## Authentication state (internal/config/authentication.go)

The process-wide token `akeylessAuthToken` guarded by `mutexAuthToken` is
modelled as an explicit state value; `setAuthToken` is the only writer. -/

structure AuthState where
  akeylessAuthToken : String
  deriving Repr, DecidableEq

/-- setAuthToken: replace the shared token (writer lock). -/
def setAuthToken (t : String) (_st : AuthState) : AuthState := ⟨t⟩

/-- GetAuthToken: read the shared token (reader lock). -/
def GetAuthToken (st : AuthState) : String := st.akeylessAuthToken

/-- Outcome of one gateway `Auth` call for a given mechanism's payload. -/
inductive AuthResult
  | ok (token : String)
  | err (msg : String)
  deriving Repr, DecidableEq

/-- True when the attempt failed. -/
def AuthResult.isFail : AuthResult → Bool
  | .ok _ => false
  | .err _ => true

/-- Oracle for the remote side of authentication: the outcome the gateway
(and the cloud-identity providers) would give each mechanism's attempt, and
the outcome of `UidRotateToken` as a function of the presented token. -/
structure AuthEnv where
  accessKeyAuth : AuthResult
  awsAuth : AuthResult
  azureAuth : AuthResult
  gcpAuth : AuthResult
  k8sAuth : AuthResult
  uidRotate : String → Except String String

/-- Config.authenticate: call the gateway's Auth operation; on success the
returned token is installed via `setAuthToken`, on failure the state is
untouched and the error is wrapped. -/
def authenticate (result : AuthResult) (st : AuthState) :
    Except String Unit × AuthState :=
  match result with
  | .ok token => (.ok (), setAuthToken token st)
  | .err e => (.error ("authentication failed " ++ e), st)

/-- Config.authWithAccessKey (failure is logged and returned). -/
def authWithAccessKey (env : AuthEnv) (st : AuthState) :
    Except String Unit × AuthState :=
  authenticate env.accessKeyAuth st

/-- Config.authWithAWS: cloud-id acquisition failure or gateway failure is
folded into the oracle's outcome. -/
def authWithAWS (env : AuthEnv) (st : AuthState) :
    Except String Unit × AuthState :=
  authenticate env.awsAuth st

/-- Config.authWithAzure. -/
def authWithAzure (env : AuthEnv) (st : AuthState) :
    Except String Unit × AuthState :=
  authenticate env.azureAuth st

/-- Config.authWithGCP. -/
def authWithGCP (env : AuthEnv) (st : AuthState) :
    Except String Unit × AuthState :=
  authenticate env.gcpAuth st

/-- Modelled from the spec: `authWithK8S`, the Kubernetes service-account
authentication attempt called by `detectAccessType`; its body is not among
the repository files available here.  Per the spec it attempts the gateway's
authenticate operation with a type-specific credential payload and installs
the token on success, like the other mechanisms. -/
def authWithK8S (env : AuthEnv) (st : AuthState) :
    Except String Unit × AuthState :=
  authenticate env.k8sAuth st

/-- Config.rotateUIDToken: present the current token to the gateway's rotate
operation; an empty returned token is a fatal rotation failure and the
shared token is only replaced on success. -/
def rotateUIDToken (env : AuthEnv) (st : AuthState) :
    Except String Unit × AuthState :=
  let currToken := GetAuthToken st
  match env.uidRotate currToken with
  | .error e => (.error ("failed to rotate UID token " ++ e), st)
  | .ok newToken =>
    if newToken = "" then (.error "rotated uid token returned empty", st)
    else (.ok (), setAuthToken newToken st)

/-- Config.detectAccessType: terminal-on-first-success trial of the
mechanisms in the source's fixed order; returns the detected type, the
resulting token state and the list of mechanisms actually attempted. -/
def detectAccessType (env : AuthEnv) (c : Parameters) (st : AuthState) :
    String × AuthState × List String :=
  if c.akeylessAccessID = "" then ("", st, [])
  else
    match authWithAccessKey env st with
    | (.ok _, st1) => (AccessKey, st1, [AccessKey])
    | (.error _, st1) =>
      match authWithAWS env st1 with
      | (.ok _, st2) => (AWSIAM, st2, [AccessKey, AWSIAM])
      | (.error _, st2) =>
        match authWithAzure env st2 with
        | (.ok _, st3) => (AzureAD, st3, [AccessKey, AWSIAM, AzureAD])
        | (.error _, st3) =>
          match authWithGCP env st3 with
          | (.ok _, st4) => (GCP, st4, [AccessKey, AWSIAM, AzureAD, GCP])
          | (.error _, st4) =>
            match authWithK8S env st4 with
            | (.ok _, st5) => (K8S, st5, [AccessKey, AWSIAM, AzureAD, GCP, K8S])
            | (.error _, st5) =>
              let st6 := setAuthToken c.akeylessUIDInitToken st5
              match rotateUIDToken env st6 with
              | (.ok _, st7) =>
                (UniversalIdentity, st7,
                  [AccessKey, AWSIAM, AzureAD, GCP, K8S, UniversalIdentity])
              | (.error _, st7) =>
                ("", st7, [AccessKey, AWSIAM, AzureAD, GCP, K8S, UniversalIdentity])

/-! ## Configuration parsing (internal/config/config.go) -/

/-- The field-extraction prefix of parseParameters: attribute lookups and the
access-key fallback from the request secrets payload. -/
def extractParameters (params : List (String × String))
    (secret : Option (List (String × String))) : Parameters :=
  let p : Parameters := {
    akeylessGatewayURL := lookupStr params "akeylessGatewayURL"
    vaultKubernetesMountPath := lookupStr params "vaultKubernetesMountPath"
    secrets := []
    podInfo := {
      name := lookupStr params "csi.storage.k8s.io/pod.name"
      uid := lookupStr params "csi.storage.k8s.io/pod.uid"
      podNamespace := lookupStr params "csi.storage.k8s.io/pod.namespace"
      serviceAccountName := lookupStr params "csi.storage.k8s.io/serviceAccount.name" }
    akeylessAccessType := lookupStr params "akeylessAccessType"
    akeylessAccessID := lookupStr params "akeylessAccessID"
    akeylessAccessKey := lookupStr params "akeylessAccessKey"
    akeylessAzureObjectID := lookupStr params "akeylessAzureObjectID"
    akeylessGCPAudience := lookupStr params "akeylessGCPAudience"
    akeylessUIDInitToken := lookupStr params "akeylessUIDInitToken"
    akeylessK8sAuthConfigName := lookupStr params "akeylessK8sAuthConfigName" }
  if p.akeylessAccessKey = "" then
    match secret with
    | some s => { p with akeylessAccessKey := lookupStr s "akeylessAccessKey" }
    | none => p
  else p

/-- The environment-variable fallbacks and built-in defaults applied by the
tail of parseParameters, in the source's order (attribute, then environment,
then default; the access key also falls back to the generic CREDENTIALS
variable, and an unset access type defaults to `access_key`). -/
def applyEnvAndDefaults (env : List (String × String))
    (defaultAkeylessGatewayURL defaultVaultKubernetesMountPath : String)
    (p : Parameters) : Parameters :=
  { p with
    akeylessGatewayURL :=
      fallback (fallback p.akeylessGatewayURL (lookupStr env AkeylessURL))
        defaultAkeylessGatewayURL
    akeylessAccessType :=
      fallback (fallback p.akeylessAccessType (lookupStr env AkeylessAccessTypeVar))
        AccessKey
    akeylessAccessID :=
      fallback p.akeylessAccessID (lookupStr env AkeylessAccessIDVar)
    akeylessAccessKey :=
      fallback (fallback p.akeylessAccessKey (lookupStr env AkeylessAccessKeyVar))
        (lookupStr env CredentialsVar)
    akeylessAzureObjectID :=
      fallback p.akeylessAzureObjectID (lookupStr env AkeylessAzureObjectIDVar)
    akeylessGCPAudience :=
      fallback p.akeylessGCPAudience (lookupStr env AkeylessGCPAudienceVar)
    akeylessUIDInitToken :=
      fallback p.akeylessUIDInitToken (lookupStr env AkeylessUIDInitTokenVar)
    akeylessK8sAuthConfigName :=
      fallback p.akeylessK8sAuthConfigName (lookupStr env AkeylessK8sAuthConfigNameVar)
    vaultKubernetesMountPath :=
      fallback p.vaultKubernetesMountPath defaultVaultKubernetesMountPath }

/-- config.parseParameters.  `parseObjects` is the YAML unmarshaller for the
`objects` attribute (an oracle: the structured result or a parse error); the
JSON unmarshalling of the attribute and secrets maps themselves is the
already-structured `params` and `secret` inputs. -/
def parseParameters (parseObjects : String → Except String (List Secret))
    (env params : List (String × String))
    (secret : Option (List (String × String)))
    (defaultAkeylessGatewayURL defaultVaultKubernetesMountPath : String) :
    Except String Parameters :=
  let p := extractParameters params secret
  let secretsYaml := lookupStr params "objects"
  if secretsYaml = "" then
    .ok (applyEnvAndDefaults env defaultAkeylessGatewayURL
      defaultVaultKubernetesMountPath p)
  else
    match parseObjects secretsYaml with
    | .error e => .error e
    | .ok secs =>
      .ok (applyEnvAndDefaults env defaultAkeylessGatewayURL
        defaultVaultKubernetesMountPath { p with secrets := secs })

/-- Config.validate. -/
def validate (c : Config) : Except String Unit :=
  if c.targetPath = "" then .error "missing target path field"
  else if c.parameters.secrets = [] then
    .error "no secrets configured - the provider will not read any secret material"
  else .ok ()

/-- The tail of config.Parse after the access-type branch: permission
unmarshalling then validation. -/
def finishParse (ps : Parameters) (targetPath : String)
    (permission : Except String Nat) : Except String Config :=
  match permission with
  | .error e => .error e
  | .ok m =>
    let cfg : Config := { parameters := ps, targetPath := targetPath, filePermission := m }
    match validate cfg with
    | .error e => .error e
    | .ok _ => .ok cfg

/-- config.Parse: parse parameters, run the access-type branch (detection
when the merged access type is empty, otherwise a detection call whose
result is discarded, performing the initial authentication), then parse the
permission string and validate.  Returns the result together with the final
token state and the list of mechanisms attempted. -/
def Parse (parseObjects : String → Except String (List Secret))
    (env : List (String × String)) (authEnv : AuthEnv)
    (params : List (String × String))
    (secret : Option (List (String × String)))
    (targetPath : String) (permission : Except String Nat)
    (defaultVaultAddr defaultVaultKubernetesMountPath : String)
    (st : AuthState) :
    Except String Config × AuthState × List String :=
  match parseParameters parseObjects env params secret defaultVaultAddr
      defaultVaultKubernetesMountPath with
  | .error e => (.error e, st, [])
  | .ok ps =>
    if ps.akeylessAccessType = "" then
      match detectAccessType authEnv ps st with
      | (det, st', trace) =>
        if det = "" then
          (.error ("failed to detect access type of " ++ ps.akeylessAccessID),
            st', trace)
        else
          (finishParse { ps with akeylessAccessType := det } targetPath permission,
            st', trace)
    else
      match detectAccessType authEnv ps st with
      | (_, st', trace) => (finishParse ps targetPath permission, st', trace)

/-! ## JSON values (for certificate / rotated-secret serialization)

A small JSON value model for what the gateway returns in structured
responses, with a compact serializer (json.Marshal) and a two-space
pretty-printer (json.MarshalIndent with indent "  ").  String escaping is
reduced to quotes and backslashes; the claims only compare serializer
outputs symbolically. -/

inductive Json
  | str (s : String)
  | num (n : Int)
  | bool (b : Bool)
  | null
  | arr (xs : List Json)
  | obj (fields : List (String × Json))

/-- Escape a character for a JSON string literal. -/
def escapeChar (c : Char) : String :=
  if c = '"' then "\\\"" else if c = '\\' then "\\\\" else String.singleton c

/-- Escape a JSON string body. -/
def escapeString (s : String) : String :=
  String.join (s.toList.map escapeChar)

mutual

/-- Compact serialization, json.Marshal. -/
def Json.marshal : Json → String
  | .str s => "\"" ++ escapeString s ++ "\""
  | .num n => toString n
  | .bool b => if b then "true" else "false"
  | .null => "null"
  | .arr xs => "[" ++ Json.marshalElems xs ++ "]"
  | .obj fs => "\x7b" ++ Json.marshalFields fs ++ "\x7d"

/-- Comma-joined array elements. -/
def Json.marshalElems : List Json → String
  | [] => ""
  | [x] => x.marshal
  | x :: rest => x.marshal ++ "," ++ Json.marshalElems rest

/-- Comma-joined object fields. -/
def Json.marshalFields : List (String × Json) → String
  | [] => ""
  | [(k, v)] => "\"" ++ escapeString k ++ "\":" ++ v.marshal
  | (k, v) :: rest =>
    "\"" ++ escapeString k ++ "\":" ++ v.marshal ++ "," ++ Json.marshalFields rest

end

mutual

/-- Pretty serialization at an indent prefix, json.MarshalIndent semantics
with two-space indent. -/
def Json.indentAt (pre : String) : Json → String
  | .arr [] => "[]"
  | .arr xs => "[\n" ++ Json.indentElems (pre ++ "  ") xs ++ "\n" ++ pre ++ "]"
  | .obj [] => "\x7b\x7d"
  | .obj fs => "\x7b\n" ++ Json.indentFields (pre ++ "  ") fs ++ "\n" ++ pre ++ "\x7d"
  | j => j.marshal

/-- Indented, comma-and-newline-joined array elements. -/
def Json.indentElems (pre : String) : List Json → String
  | [] => ""
  | [x] => pre ++ Json.indentAt pre x
  | x :: rest => pre ++ Json.indentAt pre x ++ ",\n" ++ Json.indentElems pre rest

/-- Indented, comma-and-newline-joined object fields. -/
def Json.indentFields (pre : String) : List (String × Json) → String
  | [] => ""
  | [(k, v)] => pre ++ "\"" ++ escapeString k ++ "\": " ++ Json.indentAt pre v
  | (k, v) :: rest =>
    pre ++ "\"" ++ escapeString k ++ "\": " ++ Json.indentAt pre v ++ ",\n" ++
      Json.indentFields pre rest

end

/-- json.MarshalIndent(v, "", "  "). -/
def Json.marshalIndent (j : Json) : String := Json.indentAt "" j

/-! ## Secret retrieval and caching (internal/provider/provider.go) -/

/-- akeyless.Item as the provider consumes it: name, declared type and last
version (GetItemName / GetItemType / GetLastVersion). -/
structure Item where
  itemName : String
  itemType : String
  lastVersion : Int
  deriving Repr, DecidableEq

/-- One remote call to the gateway API, for instrumentation of which
operations a provider function performs. -/
inductive GatewayCall
  | describeItem (name : String)
  | getSecretValue (name : String)
  | getCertificateValue (name : String)
  | getRotatedSecretValue (name : String)
  deriving Repr, DecidableEq

/-- Oracle for the gateway's item API: the response each operation would
return for a given item name (an `Except` error is a transport or API
failure, already rendered to its message). -/
structure Gateway where
  describeItem : String → Except String Item
  getSecretValue : String → Except String (List (String × String))
  getCertificateValue : String → Except String Json
  getRotatedSecretValue : String → Except String (List (String × Json))

/-- Provider.GetStaticSecret: fetch the raw value map and index it by the
item name; a missing key is its own error, distinct from a transport error.
Also reports the remote call made. -/
def GetStaticSecret (gw : Gateway) (itemName : String) :
    Except String String × List GatewayCall :=
  (match gw.getSecretValue itemName with
   | .error e => .error ("can't get secret value: " ++ e)
   | .ok m =>
     match lookupPair m itemName with
     | none => .error ("can't get secret: " ++ itemName)
     | some v => .ok v,
   [GatewayCall.getSecretValue itemName])

/-- Provider.GetCertificate: fetch the structured certificate value and
serialize it (json.Marshal) as the content. -/
def GetCertificate (gw : Gateway) (itemName : String) :
    Except String String × List GatewayCall :=
  (match gw.getCertificateValue itemName with
   | .error e => .error ("can't get certificate value: " ++ e)
   | .ok out => .ok out.marshal,
   [GatewayCall.getCertificateValue itemName])

/-- Provider.GetRotatedSecret: fetch the rotated-secret value as JSON,
extract the `value` field and pretty-print it; a missing `value` is an
error. -/
def GetRotatedSecret (gw : Gateway) (itemName : String) :
    Except String String × List GatewayCall :=
  (match gw.getRotatedSecretValue itemName with
   | .error e => .error ("can't get secret value: " ++ e)
   | .ok m =>
     match lookupPair m "value" with
     | none => .error ("can't get secret: " ++ itemName)
     | some val => .ok val.marshalIndent,
   [GatewayCall.getRotatedSecretValue itemName])

/-- Provider.GetSecretByType: describe the item, then dispatch on the
freshly described item type; any type other than the three supported ones
is an unsupported-type error naming the type and the requested item.  The
returned version is the described item's last version. -/
def GetSecretByType (gw : Gateway) (itemName : String) :
    Except String (Int × String) × List GatewayCall :=
  match gw.describeItem itemName with
  | .error e =>
    (.error ("can't describe item: " ++ e), [GatewayCall.describeItem itemName])
  | .ok item =>
    let version := item.lastVersion
    if item.itemType = "STATIC_SECRET" then
      let (r, calls) := GetStaticSecret gw item.itemName
      (r.map (fun v => (version, v)), GatewayCall.describeItem itemName :: calls)
    else if item.itemType = "CERTIFICATE" then
      let (r, calls) := GetCertificate gw item.itemName
      (r.map (fun v => (version, v)), GatewayCall.describeItem itemName :: calls)
    else if item.itemType = "ROTATED_SECRET" then
      let (r, calls) := GetRotatedSecret gw item.itemName
      (r.map (fun v => (version, v)), GatewayCall.describeItem itemName :: calls)
    else
      (.error ("unsupported item type " ++ item.itemType ++ " for secret " ++ itemName),
        [GatewayCall.describeItem itemName])

/-- The call loadItems makes for one requested secret: only the secret's
source path participates; the deprecated `secretType` hint and the argument
map are never consulted. -/
def fetchForSecret (gw : Gateway) (s : Secret) :
    Except String (Int × String) × List GatewayCall :=
  GetSecretByType gw s.secretPath

/-- provider.cacheEntity: fetched value, fetch time and target file name. -/
structure CacheEntity where
  entryTime : Nat
  fileName : String
  value : String
  deriving Repr, DecidableEq

/-- The provider's process-lifetime cache keyed by source path. -/
abbrev Cache := List (String × CacheEntity)

/-- One minute of the model's clock, in seconds. -/
def minute : Nat := 60

/-- Outcome of Provider.loadItems: `fatal` models log.Fatalf terminating the
process on the first per-secret retrieval failure; `done` carries the
updated cache, the versions map of this request, and in both cases the
remote calls performed. -/
inductive LoadResult
  | fatal (msg : String) (calls : List GatewayCall)
  | done (cache : Cache) (versions : List (String × String))
      (calls : List GatewayCall)
  deriving Repr, DecidableEq

/-- The remote calls a load performed. -/
def LoadResult.calls : LoadResult → List GatewayCall
  | .fatal _ cs => cs
  | .done _ _ cs => cs

/-- Prepend the remote calls of the current secret to a later result. -/
def LoadResult.withCallsBefore (calls : List GatewayCall) : LoadResult → LoadResult
  | .fatal m cs => .fatal m (calls ++ cs)
  | .done c v cs => .done c v (calls ++ cs)

/-- The cache update of one loadItems iteration: a new zero entity bound to
the request's file name is allocated when the entry is missing or older than
five minutes, and the entry's value and entry time are then overwritten
unconditionally. -/
def cacheStep (now : Nat) (s : Secret) (secVal : String) (cache : Cache) : Cache :=
  let base : CacheEntity :=
    match lookupPair cache s.secretPath with
    | none => { entryTime := 0, fileName := s.fileName, value := "" }
    | some ce =>
      if now - ce.entryTime > 5 * minute then
        { entryTime := 0, fileName := s.fileName, value := "" }
      else ce
  insertPair cache s.secretPath { base with value := secVal, entryTime := now }

/-- The per-secret loop body of Provider.loadItems: fetch (always), record
the version under "fileName:secretPath", then apply `cacheStep`. -/
def loadItemsGo (gw : Gateway) (now : Nat) :
    Cache → List (String × String) → List Secret → LoadResult
  | cache, versions, [] => .done cache versions []
  | cache, versions, s :: rest =>
    match fetchForSecret gw s with
    | (.error e, calls) => .fatal e calls
    | (.ok (version, secVal), calls) =>
      let versions' :=
        insertPair versions (s.fileName ++ ":" ++ s.secretPath) (toString version)
      LoadResult.withCallsBefore calls
        (loadItemsGo gw now (cacheStep now s secVal cache) versions' rest)

/-- Provider.loadItems: reset the versions map and process every requested
secret of the config. -/
def loadItems (gw : Gateway) (now : Nat) (cfg : Config) (cache : Cache) :
    LoadResult :=
  loadItemsGo gw now cache [] cfg.parameters.secrets

/-- pb.File as the provider fills it. -/
structure File where
  path : String
  mode : Nat
  contents : String
  deriving Repr, DecidableEq

/-- pb.ObjectVersion. -/
structure ObjectVersion where
  id : String
  version : String
  deriving Repr, DecidableEq

/-- pb.MountResponse. -/
structure MountResponse where
  objectVersion : List ObjectVersion
  files : List File
  deriving Repr, DecidableEq

/-- What Provider.HandleMountRequest can produce: a fatal process exit from
loadItems, a response with a nil error, or an error returned to the RPC
caller — the last is expressible in the Go signature and the model, and the
theorems show the code never produces it. -/
inductive MountOutcome
  | fatal (msg : String)
  | success (resp : MountResponse)
  | failure (err : String)
  deriving Repr, DecidableEq

/-- True only for the error-return outcome. -/
def MountOutcome.isFailure : MountOutcome → Bool
  | .failure _ => true
  | _ => false

/-- Provider.HandleMountRequest: load all items, then project the cache into
file entries (file name, requested permission, value bytes) and the versions
map into object-version entries. -/
def HandleMountRequest (gw : Gateway) (now : Nat) (cfg : Config)
    (cache : Cache) : MountOutcome :=
  match loadItems gw now cfg cache with
  | .fatal m _ => .fatal m
  | .done cache' versions _ =>
    .success {
      objectVersion := versions.map (fun p => { id := p.1, version := p.2 })
      files := cache'.map (fun p =>
        { path := p.2.fileName, mode := cfg.filePermission, contents := p.2.value }) }

/-! ## The Universal-Identity refresh loop (authentication.go)

`uidRotationLoop` is one run of the closure StartAuthentication hands to
runForeverWithContext for the Universal-Identity access type: on each
rotation-interval tick it rotates the UID token, exiting with the first
rotation error; on context cancellation it signals `closed` and returns nil.
`runForeverUID` is runForeverWithContextEx's outer loop: each of its
one-second ticks invokes the closure once more, so a run that exited with an
error is followed by a fresh run; a run that exited via cancellation ends
the outer loop too.  Events are explicit finite traces; the `Nat` counts
rotation attempts performed. -/

inductive LoopEvent
  | tick
  | ctxDone
  deriving Repr, DecidableEq

inductive LoopExit
  | errored (msg : String)
  | closedOk
  | pending
  deriving Repr, DecidableEq

/-- One run of the UID-rotation closure over a finite tick trace. -/
def uidRotationLoop (env : AuthEnv) :
    AuthState → List LoopEvent → LoopExit × AuthState × Nat
  | st, [] => (.pending, st, 0)
  | st, .ctxDone :: _ => (.closedOk, st, 0)
  | st, .tick :: rest =>
    match rotateUIDToken env st with
    | (.error e, st') => (.errored e, st', 1)
    | (.ok _, st') =>
      let (ex, st'', n) := uidRotationLoop env st' rest
      (ex, st'', n + 1)

/-- runForeverWithContextEx applied to the UID-rotation closure: one inner
run per outer tick; an errored run is logged and the closure is invoked
again, a cancelled run ends the outer loop. -/
def runForeverUID (env : AuthEnv) :
    AuthState → List (List LoopEvent) → AuthState × List LoopExit × Nat
  | st, [] => (st, [], 0)
  | st, evs :: rest =>
    match uidRotationLoop env st evs with
    | (.errored e, st', n) =>
      let (st'', exs, m) := runForeverUID env st' rest
      (st'', .errored e :: exs, n + m)
    | (.closedOk, st', n) => (st', [.closedOk], n)
    | (.pending, st', n) => (st', [.pending], n)

/-! ## Spec-side detection (for comparison with `detectAccessType`)

These definitions follow the spec's words, not the source: detection is
"first success in list order" over the fixed mechanism order. -/

/-- Spec-side: the fixed detection order the spec states. -/
def detectionOrderSpec : List String :=
  [AccessKey, AWSIAM, AzureAD, GCP, K8S, UniversalIdentity]

/-- Spec-side: whether a mechanism's credentials are satisfiable under the
oracle; for Universal-Identity, rotating the configured init token must
return a non-empty token. -/
def mechanismSucceeds (env : AuthEnv) (c : Parameters) : String → Bool
  | "access_key" => !env.accessKeyAuth.isFail
  | "aws_iam" => !env.awsAuth.isFail
  | "azure_ad" => !env.azureAuth.isFail
  | "gcp" => !env.gcpAuth.isFail
  | "k8s" => !env.k8sAuth.isFail
  | "universal_identity" =>
    match env.uidRotate c.akeylessUIDInitToken with
    | .error _ => false
    | .ok t => !(t == "")
  | _ => false

/-- Spec-side: the first mechanism in the fixed order whose attempt
succeeds, if any. -/
def specDetect (env : AuthEnv) (c : Parameters) : Option String :=
  detectionOrderSpec.find? (mechanismSucceeds env c)

/-- The remote calls Provider.loadItems is bound to perform for a secret
list: per secret, the fetch's calls, stopping at the first failed fetch.
Depends only on the gateway responses and the requested paths. -/
def plannedCalls (gw : Gateway) : List Secret → List GatewayCall
  | [] => []
  | s :: rest =>
    match fetchForSecret gw s with
    | (.error _, calls) => calls
    | (.ok _, calls) => calls ++ plannedCalls gw rest

/-! ## Concrete fixtures for counterexamples and witnesses -/

/-- The example secret of the repository's test data:
`\x7bfileName: "bar1", secretPath: "/foo/bar"\x7d`. -/
def sBar : Secret :=
  { fileName := "bar1", secretPath := "/foo/bar", secretType := "", secretArgs := [] }

/-- Gateway holding one static secret `/foo/bar` with value `supersecret`. -/
def gwStatic : Gateway := {
  describeItem := fun n =>
    if n = "/foo/bar" then
      .ok { itemName := "/foo/bar", itemType := "STATIC_SECRET", lastVersion := 0 }
    else .error "unknown item"
  getSecretValue := fun n =>
    if n = "/foo/bar" then .ok [("/foo/bar", "supersecret")] else .error "unknown item"
  getCertificateValue := fun _ => .error "unknown item"
  getRotatedSecretValue := fun _ => .error "unknown item" }

/-- Gateway with one item of each declared type, plus an unknown type. -/
def gwMulti : Gateway := {
  describeItem := fun n =>
    if n = "s" then .ok { itemName := "s", itemType := "STATIC_SECRET", lastVersion := 7 }
    else if n = "r" then .ok { itemName := "r", itemType := "ROTATED_SECRET", lastVersion := 3 }
    else if n = "c" then .ok { itemName := "c", itemType := "CERTIFICATE", lastVersion := 2 }
    else if n = "u" then .ok { itemName := "u", itemType := "UNKNOWN", lastVersion := 1 }
    else .error "unknown item"
  getSecretValue := fun n => if n = "s" then .ok [("s", "V")] else .error "no such secret"
  getCertificateValue := fun n =>
    if n = "c" then .ok (Json.obj [("cert", Json.str "PEM")]) else .error "no such secret"
  getRotatedSecretValue := fun n =>
    if n = "r" then .ok [("value", Json.str "rv")] else .error "no such secret" }

def emptyPodInfo : PodInfo :=
  { name := "", uid := "", podNamespace := "", serviceAccountName := "" }

def emptyParameters : Parameters := {
  akeylessGatewayURL := "", vaultKubernetesMountPath := "", secrets := []
  podInfo := emptyPodInfo, akeylessAccessType := "", akeylessAccessID := ""
  akeylessAccessKey := "", akeylessAzureObjectID := "", akeylessGCPAudience := ""
  akeylessUIDInitToken := "", akeylessK8sAuthConfigName := "" }

/-- Config requesting the one static secret. -/
def cfgBar : Config :=
  { parameters := { emptyParameters with secrets := [sBar] }
    targetPath := "/some/path", filePermission := 420 }

/-- A cache holding `/foo/bar` fetched at time 100 (age 100 s at time 200,
strictly fresher than the five-minute window). -/
def cacheFresh : Cache :=
  [("/foo/bar", { entryTime := 100, fileName := "bar1", value := "old-value" })]

/-- Authentication oracle under which every mechanism fails. -/
def envAllFail : AuthEnv := {
  accessKeyAuth := .err "access key refused", awsAuth := .err "no aws identity"
  azureAuth := .err "no azure identity", gcpAuth := .err "no gcp identity"
  k8sAuth := .err "no k8s auth", uidRotate := fun _ => .error "rotate refused" }

/-- Only the access-key mechanism succeeds. -/
def envAccessKeyOnly : AuthEnv := { envAllFail with accessKeyAuth := .ok "tokA" }

/-- Every mechanism succeeds. -/
def envAllOk : AuthEnv := {
  accessKeyAuth := .ok "t1", awsAuth := .ok "t2", azureAuth := .ok "t3"
  gcpAuth := .ok "t4", k8sAuth := .ok "t5", uidRotate := fun _ => .ok "t6" }

/-- The gateway's rotate operation returns an empty token. -/
def envEmptyRotate : AuthEnv := { envAllFail with uidRotate := fun _ => .ok "" }

/-- Objects-YAML oracle: the document `objs` parses to the one test secret. -/
def parseObjectsEx : String → Except String (List Secret) :=
  fun s => if s = "objs" then .ok [sBar] else .error "yaml: parse failure"

/-- Request attributes pinning the access type to `azure_ad`. -/
def paramsPinnedAzure : List (String × String) :=
  [("akeylessAccessType", "azure_ad"), ("akeylessAccessID", "a1"), ("objects", "objs")]

/-- The parameters `paramsPinnedAzure` resolves to. -/
def psPinnedAzure : Parameters := { emptyParameters with
  akeylessGatewayURL := "gw-default", vaultKubernetesMountPath := "mount-default"
  secrets := [sBar], akeylessAccessType := "azure_ad", akeylessAccessID := "a1" }

def cfgPinnedAzure : Config :=
  { parameters := psPinnedAzure, targetPath := "/some/path", filePermission := 420 }

/-- Request attributes with no pinned access type but a UID init token. -/
def paramsUnpinnedUID : List (String × String) :=
  [("akeylessAccessID", "a1"), ("akeylessUIDInitToken", "init-tok"), ("objects", "objs")]

/-- The parameters `paramsUnpinnedUID` resolves to: the access type is
defaulted to `access_key`. -/
def psUnpinnedUID : Parameters := { emptyParameters with
  akeylessGatewayURL := "gw-default", vaultKubernetesMountPath := "mount-default"
  secrets := [sBar], akeylessAccessType := "access_key", akeylessAccessID := "a1"
  akeylessUIDInitToken := "init-tok" }

def cfgUnpinnedUID : Config :=
  { parameters := psUnpinnedUID, targetPath := "/some/path", filePermission := 420 }

/-- Parameters resolved from an attribute map holding only `objects`. -/
def psObjsOnly : Parameters := { emptyParameters with
  akeylessGatewayURL := "gw-default", vaultKubernetesMountPath := "mount-default"
  secrets := [sBar], akeylessAccessType := "access_key" }

/-! ## Helper lemmas -/

/-- A fallback to a non-empty default is non-empty. -/
theorem fallback_ne_empty (v w : String) (hw : w ≠ "") : fallback v w ≠ "" := by
  unfold fallback
  split
  · exact hw
  · assumption

/-- The merged access type of applyEnvAndDefaults is never empty: an unset
access type is defaulted to `access_key`. -/
theorem applyEnvAndDefaults_accessType_ne (env : List (String × String))
    (d1 d2 : String) (p : Parameters) :
    (applyEnvAndDefaults env d1 d2 p).akeylessAccessType ≠ "" := by
  show fallback _ AccessKey ≠ ""
  exact fallback_ne_empty _ _ (by decide)

/-- Any parameters parseParameters produces carry a non-empty access type. -/
theorem parseParameters_accessType_ne
    (parseObjects : String → Except String (List Secret))
    (env params : List (String × String))
    (secret : Option (List (String × String))) (d1 d2 : String)
    (ps : Parameters)
    (h : parseParameters parseObjects env params secret d1 d2 = .ok ps) :
    ps.akeylessAccessType ≠ "" := by
  simp only [parseParameters] at h
  split at h
  · cases h
    exact applyEnvAndDefaults_accessType_ne _ _ _ _
  · split at h
    · cases h
    · cases h
      exact applyEnvAndDefaults_accessType_ne _ _ _ _

/-- Prepending calls prepends them to the trace of either outcome. -/
theorem LoadResult.calls_withCallsBefore (calls : List GatewayCall) (r : LoadResult) :
    (LoadResult.withCallsBefore calls r).calls = calls ++ r.calls := by
  cases r <;> rfl

/-- The remote calls of the loadItems loop depend only on the gateway and
the secret list, never on the cache, the versions map or the clock. -/
theorem loadItemsGo_calls (gw : Gateway) (now : Nat) :
    ∀ (secrets : List Secret) (cache : Cache) (versions : List (String × String)),
      (loadItemsGo gw now cache versions secrets).calls = plannedCalls gw secrets := by
  intro secrets
  induction secrets with
  | nil => intro cache versions; rfl
  | cons s rest ih =>
    intro cache versions
    simp only [loadItemsGo, plannedCalls]
    rcases hf : fetchForSecret gw s with ⟨r, calls⟩
    rcases r with e | ⟨ver, v⟩
    · rfl
    · simp only [LoadResult.calls_withCallsBefore, ih]

/-- Looking up the key just written finds exactly the written entity. -/
theorem lookupPair_insertPair {α : Type} (m : List (String × α)) (k : String) (x : α) :
    lookupPair (insertPair m k x) k = some x := by
  induction m with
  | nil => simp [insertPair, lookupPair]
  | cons p rest ih =>
    rcases p with ⟨k', v'⟩
    by_cases h : k' = k
    · simp [insertPair, h, lookupPair]
    · simp [insertPair, h, lookupPair, ih]

/-! ## Claim theorems -/

/-- C1 (counterexample): a mount request for `/foo/bar` whose cache entry is
100 seconds old — strictly fresher than the five-minute window — still
performs two remote gateway calls (describe + get), contradicting the
claim's "performs no remote gateway call"; the cached value is replaced,
not reused. -/
theorem c1_freshness_counterexample :
    (200 - 100 < 5 * minute) ∧
    lookupPair cacheFresh "/foo/bar" =
      some { entryTime := 100, fileName := "bar1", value := "old-value" } ∧
    loadItems gwStatic 200 cfgBar cacheFresh =
      .done [("/foo/bar", { entryTime := 200, fileName := "bar1", value := "supersecret" })]
        [("bar1:/foo/bar", "0")]
        [GatewayCall.describeItem "/foo/bar", GatewayCall.getSecretValue "/foo/bar"] :=
  ⟨by decide, rfl, rfl⟩

/-- C1 (amended): for every mount request and requested secret path a remote
(re)fetch is performed regardless of cache state — the remote calls depend
only on the gateway and the requested secret list, never on the cache — and
on a successful fetch the entry's value and fetchedAt are always overwritten
with the fetched value and the current time; the freshness test (missing
entry, or age strictly over five minutes) governs only whether the cache
entity is reallocated, rebinding the entry's file name to the request's
file name. -/
theorem c1_freshness_amended :
    (∀ (gw : Gateway) (now : Nat) (cfg : Config) (c₁ c₂ : Cache),
      (loadItems gw now cfg c₁).calls = (loadItems gw now cfg c₂).calls) ∧
    (∀ (gw : Gateway) (now : Nat) (cfg : Config) (cache : Cache) (s : Secret)
        (ver : Int) (v : String) (cs : List GatewayCall),
      cfg.parameters.secrets = [s] →
      fetchForSecret gw s = (.ok (ver, v), cs) →
      loadItems gw now cfg cache =
        .done (cacheStep now s v cache)
          [(s.fileName ++ ":" ++ s.secretPath, toString ver)] cs) ∧
    (∀ (now : Nat) (s : Secret) (v : String) (cache : Cache),
      lookupPair (cacheStep now s v cache) s.secretPath =
        some { entryTime := now
               fileName :=
                 match lookupPair cache s.secretPath with
                 | none => s.fileName
                 | some ce =>
                   if now - ce.entryTime > 5 * minute then s.fileName else ce.fileName
               value := v }) := by
  refine ⟨?_, ?_, ?_⟩
  · intro gw now cfg c₁ c₂
    rw [loadItems, loadItems, loadItemsGo_calls, loadItemsGo_calls]
  · intro gw now cfg cache s ver v cs hsec hfetch
    rw [loadItems, hsec]
    simp [loadItemsGo, hfetch, LoadResult.withCallsBefore, insertPair]
  · intro now s v cache
    unfold cacheStep
    rw [lookupPair_insertPair]
    cases hl : lookupPair cache s.secretPath with
    | none => rfl
    | some ce =>
      by_cases hst : now - ce.entryTime > 5 * minute <;> simp [hst]

/-- C5: config resolution, on inputs whose parameter map and permission
string parse successfully (authentication outcomes are irrelevant to the
result), fails if and only if the target path is empty or the parsed secret
list is empty; an empty secret list is a hard error, never a success with
no secrets. -/
theorem c5_validation_iff
    (parseObjects : String → Except String (List Secret))
    (env : List (String × String)) (authEnv : AuthEnv)
    (params : List (String × String)) (secret : Option (List (String × String)))
    (tp : String) (perm : Except String Nat) (d1 d2 : String) (st : AuthState)
    (ps : Parameters) (m : Nat)
    (hps : parseParameters parseObjects env params secret d1 d2 = .ok ps)
    (hperm : perm = .ok m) :
    (∃ e, (Parse parseObjects env authEnv params secret tp perm d1 d2 st).1 = .error e)
      ↔ (tp = "" ∨ ps.secrets = []) := by
  have hne := parseParameters_accessType_ne parseObjects env params secret d1 d2 ps hps
  subst hperm
  simp only [Parse, hps]
  rw [if_neg hne]
  rcases hd : detectAccessType authEnv ps st with ⟨det, st', trace⟩
  constructor
  · rintro ⟨e, he⟩
    by_cases htp : tp = ""
    · exact .inl htp
    · by_cases hs : ps.secrets = []
      · exact .inr hs
      · exfalso
        simp [finishParse, validate, htp, hs] at he
  · intro h
    by_cases htp : tp = ""
    · exact ⟨"missing target path field", by simp [finishParse, validate, htp]⟩
    · rcases h with h | hs
      · exact absurd h htp
      · exact ⟨"no secrets configured - the provider will not read any secret material",
          by simp [finishParse, validate, htp, hs]⟩

/-- C5 (witness): a concrete request with an empty target path is rejected
by config resolution. -/
theorem c5_validation_iff_witness :
    ∃ e, (Parse parseObjectsEx [] envAllOk [("objects", "objs")] none "" (.ok 420)
        "gw-default" "mount-default" ⟨""⟩).1 = .error e :=
  (c5_validation_iff parseObjectsEx [] envAllOk [("objects", "objs")] none ""
      (.ok 420) "gw-default" "mount-default" ⟨""⟩ psObjsOnly 420 rfl rfl).mpr
    (Or.inl rfl)

/-- C8: for a config with the single StaticSecret
`\x7bfileName: "bar1", secretPath: "/foo/bar"\x7d` whose gateway value is
`supersecret`, the first mount response holds exactly one file entry
`\x7bpath: "bar1", contents: "supersecret"\x7d` with the requested
permission mode 420 and exactly one version entry
`\x7bid: "bar1:/foo/bar", version: "0"\x7d`. -/
theorem c8_static_scenario :
    HandleMountRequest gwStatic 200 cfgBar [] =
      .success { objectVersion := [{ id := "bar1:/foo/bar", version := "0" }]
                 files := [{ path := "bar1", mode := 420, contents := "supersecret" }] } :=
  rfl

/-- C9: HandleMountRequest never returns an error to the RPC caller: for
every input it either succeeds with a mount response (and a nil error), or
the first per-secret retrieval failure terminates the whole process (the
log.Fatalf inside loadItems) before any response is produced. -/
theorem c9_no_error_return (gw : Gateway) (now : Nat) (cfg : Config) (cache : Cache) :
    ((HandleMountRequest gw now cfg cache).isFailure = false) ∧
    ((∃ m cs, loadItems gw now cfg cache = .fatal m cs ∧
        HandleMountRequest gw now cfg cache = .fatal m) ∨
     (∃ resp, HandleMountRequest gw now cfg cache = .success resp)) := by
  unfold HandleMountRequest
  cases h : loadItems gw now cfg cache with
  | fatal m cs => exact ⟨rfl, .inl ⟨m, cs, rfl, rfl⟩⟩
  | done c v cs => exact ⟨rfl, .inr ⟨_, rfl⟩⟩

/-- C10: with an empty access ID, access-type detection fails immediately:
no credential mechanism is attempted, no gateway contact happens (the
attempt trace is empty) and the token state is untouched, whatever other
credentials are present. -/
theorem c10_empty_access_id (env : AuthEnv) (c : Parameters) (st : AuthState)
    (h : c.akeylessAccessID = "") :
    detectAccessType env c st = ("", st, []) := by
  unfold detectAccessType
  rw [if_pos h]

/-- C10 (witness): even under an oracle where every mechanism would succeed
and with other credentials configured, an empty access ID yields immediate
failure with no attempts. -/
theorem c10_empty_access_id_witness :
    detectAccessType envAllOk
      { emptyParameters with akeylessAccessKey := "k", akeylessUIDInitToken := "u" }
      ⟨"tok"⟩ = ("", ⟨"tok"⟩, []) :=
  c10_empty_access_id envAllOk _ ⟨"tok"⟩ rfl

/-- C4: dispatch follows the freshly described item type only — a
STATIC_SECRET item yields exactly the remote value, a ROTATED_SECRET item
yields the pretty-printed `value` field (its absence is an error), a
CERTIFICATE item yields the serialized structured certificate object, any
other declared type is an unsupported-type error naming the type and the
item — and the deprecated secretType hint (and argument map) of the request
never influence the dispatch. -/
theorem c4_type_dispatch :
    (∀ (gw : Gateway) (path : String) (item : Item),
      gw.describeItem path = .ok item →
      ((item.itemType = "STATIC_SECRET" →
          ∀ m v, gw.getSecretValue item.itemName = .ok m →
            lookupPair m item.itemName = some v →
            (GetSecretByType gw path).1 = .ok (item.lastVersion, v)) ∧
       (item.itemType = "ROTATED_SECRET" →
          ∀ m j, gw.getRotatedSecretValue item.itemName = .ok m →
            lookupPair m "value" = some j →
            (GetSecretByType gw path).1 = .ok (item.lastVersion, j.marshalIndent)) ∧
       (item.itemType = "ROTATED_SECRET" →
          ∀ m, gw.getRotatedSecretValue item.itemName = .ok m →
            lookupPair m "value" = none →
            (GetSecretByType gw path).1 =
              .error ("can't get secret: " ++ item.itemName)) ∧
       (item.itemType = "CERTIFICATE" →
          ∀ j, gw.getCertificateValue item.itemName = .ok j →
            (GetSecretByType gw path).1 = .ok (item.lastVersion, j.marshal)) ∧
       (item.itemType ≠ "STATIC_SECRET" → item.itemType ≠ "CERTIFICATE" →
          item.itemType ≠ "ROTATED_SECRET" →
          (GetSecretByType gw path).1 =
            .error ("unsupported item type " ++ item.itemType ++ " for secret " ++ path)))) ∧
    (∀ (gw : Gateway) (s : Secret) (t : String) (args : List (String × String)),
      fetchForSecret gw { s with secretType := t, secretArgs := args } =
        fetchForSecret gw s) := by
  constructor
  · intro gw path item hdesc
    refine ⟨?_, ?_, ?_, ?_, ?_⟩
    · intro hty m v hm hlook
      simp [GetSecretByType, hdesc, hty, GetStaticSecret, hm, hlook, Except.map]
    · intro hty m j hm hlook
      simp [GetSecretByType, hdesc, hty, GetRotatedSecret, hm, hlook, Except.map]
    · intro hty m hm hlook
      simp [GetSecretByType, hdesc, hty, GetRotatedSecret, hm, hlook, Except.map]
    · intro hty j hm
      simp [GetSecretByType, hdesc, hty, GetCertificate, hm, Except.map]
    · intro h1 h2 h3
      simp [GetSecretByType, hdesc, h1, h2, h3]
  · intro gw s t args
    rfl

/-- C4 (witness): concrete items of each type under one gateway. -/
theorem c4_type_dispatch_witness :
    (GetSecretByType gwMulti "s").1 = .ok (7, "V") ∧
    (GetSecretByType gwMulti "r").1 = .ok (3, (Json.str "rv").marshalIndent) ∧
    (GetSecretByType gwMulti "c").1 = .ok (2, (Json.obj [("cert", Json.str "PEM")]).marshal) ∧
    (GetSecretByType gwMulti "u").1 = .error "unsupported item type UNKNOWN for secret u" ∧
    fetchForSecret gwMulti { sBar with secretType := "LegacyHint", secretArgs := [("a", "b")] } =
      fetchForSecret gwMulti sBar := by
  refine ⟨?_, ?_, ?_, ?_, c4_type_dispatch.2 gwMulti sBar "LegacyHint" [("a", "b")]⟩
  · exact (c4_type_dispatch.1 gwMulti "s" ⟨"s", "STATIC_SECRET", 7⟩ rfl).1 rfl
      [("s", "V")] "V" rfl rfl
  · exact (c4_type_dispatch.1 gwMulti "r" ⟨"r", "ROTATED_SECRET", 3⟩ rfl).2.1 rfl
      [("value", Json.str "rv")] (Json.str "rv") rfl rfl
  · exact (c4_type_dispatch.1 gwMulti "c" ⟨"c", "CERTIFICATE", 2⟩ rfl).2.2.2.1 rfl
      (Json.obj [("cert", Json.str "PEM")]) rfl
  · exact (c4_type_dispatch.1 gwMulti "u" ⟨"u", "UNKNOWN", 1⟩ rfl).2.2.2.2
      (by decide) (by decide) (by decide)

/-- C2 (counterexample): with the access type pinned to `azure_ad`, config
resolution still begins the detection chain at the access-key mechanism —
under an oracle where only access-key succeeds the attempt trace is
`[access_key]`, not `[azure_ad]` — and under an oracle where every
mechanism (the pinned one included) fails, resolution nevertheless
succeeds: the failure is not surfaced. -/
theorem c2_pinned_counterexample :
    Parse parseObjectsEx [] envAccessKeyOnly paramsPinnedAzure none "/some/path"
        (.ok 420) "gw-default" "mount-default" ⟨""⟩ =
      (.ok cfgPinnedAzure, ⟨"tokA"⟩, [AccessKey]) ∧
    Parse parseObjectsEx [] envAllFail paramsPinnedAzure none "/some/path"
        (.ok 420) "gw-default" "mount-default" ⟨""⟩ =
      (.ok cfgPinnedAzure, ⟨""⟩,
        [AccessKey, AWSIAM, AzureAD, GCP, K8S, UniversalIdentity]) :=
  ⟨rfl, rfl⟩

/-- C2 (amended): when the access type is pinned, Parse keeps the pinned
type but still runs the full detection chain as its initial
authentication — the chain begins at the access-key mechanism whatever type
was pinned — and authentication outcomes are never surfaced: the resolution
result is independent of the authentication oracle. -/
theorem c2_pinned_amended :
    (∀ (parseObjects : String → Except String (List Secret))
        (env : List (String × String)) (envA envB : AuthEnv)
        (params : List (String × String)) (secret : Option (List (String × String)))
        (tp : String) (perm : Except String Nat) (d1 d2 : String) (st : AuthState),
      (Parse parseObjects env envA params secret tp perm d1 d2 st).1 =
        (Parse parseObjects env envB params secret tp perm d1 d2 st).1) ∧
    (∀ (parseObjects : String → Except String (List Secret))
        (env : List (String × String)) (authEnv : AuthEnv)
        (params : List (String × String)) (secret : Option (List (String × String)))
        (tp : String) (perm : Except String Nat) (d1 d2 : String) (st : AuthState)
        (ps : Parameters) (tok : String),
      parseParameters parseObjects env params secret d1 d2 = .ok ps →
      ps.akeylessAccessID ≠ "" →
      authEnv.accessKeyAuth = .ok tok →
      (Parse parseObjects env authEnv params secret tp perm d1 d2 st).2.2 =
        [AccessKey]) := by
  constructor
  · intro parseObjects env envA envB params secret tp perm d1 d2 st
    cases hps : parseParameters parseObjects env params secret d1 d2 with
    | error e => simp [Parse, hps]
    | ok ps =>
      have hne := parseParameters_accessType_ne parseObjects env params secret d1 d2 ps hps
      simp only [Parse, hps]
      rw [if_neg hne, if_neg hne]
  · intro parseObjects env authEnv params secret tp perm d1 d2 st ps tok hps hid hak
    have hne := parseParameters_accessType_ne parseObjects env params secret d1 d2 ps hps
    have hdet : detectAccessType authEnv ps st = (AccessKey, setAuthToken tok st, [AccessKey]) := by
      unfold detectAccessType
      rw [if_neg hid]
      simp [authWithAccessKey, hak, authenticate]
    simp only [Parse, hps]
    rw [if_neg hne, hdet]

/-- C3 (counterexample): an unpinned config whose every credential
mechanism fails — detection finds no mechanism — is nevertheless resolved
successfully (with the defaulted access type), contradicting "detection
fails and config resolution returns an error". -/
theorem c3_detection_counterexample :
    specDetect envAllFail psUnpinnedUID = none ∧
    (Parse parseObjectsEx [] envAllFail paramsUnpinnedUID none "/some/path" (.ok 420)
        "gw-default" "mount-default" ⟨""⟩).1 = .ok cfgUnpinnedUID :=
  ⟨rfl, rfl⟩

/-- C3 (amended): detectAccessType implements first-success detection over
the strict fixed order access-key, AWS-IAM, Azure-AD, GCP, Kubernetes,
Universal-Identity (so with exactly one satisfiable mechanism that one is
detected, and with several the earliest wins), and returns empty when all
attempts fail; but config resolution does not then return an error: the
unset access type was already defaulted to access-key by parseParameters,
so Parse ignores the detection result and succeeds whenever validation
passes. -/
theorem c3_detection_amended :
    (∀ (env : AuthEnv) (c : Parameters) (st : AuthState),
      c.akeylessAccessID ≠ "" →
      (detectAccessType env c st).1 = (specDetect env c).getD "") ∧
    (∀ (parseObjects : String → Except String (List Secret))
        (env : List (String × String)) (authEnv : AuthEnv)
        (params : List (String × String)) (secret : Option (List (String × String)))
        (tp : String) (perm : Except String Nat) (d1 d2 : String) (st : AuthState)
        (ps : Parameters) (m : Nat),
      parseParameters parseObjects env params secret d1 d2 = .ok ps →
      perm = .ok m →
      specDetect authEnv ps = none →
      tp ≠ "" → ps.secrets ≠ [] →
      (Parse parseObjects env authEnv params secret tp perm d1 d2 st).1 =
        .ok { parameters := ps, targetPath := tp, filePermission := m }) := by
  constructor
  · intro env c st hid
    unfold detectAccessType authWithAccessKey authWithAWS authWithAzure authWithGCP
      authWithK8S rotateUIDToken GetAuthToken setAuthToken
    rw [if_neg hid]
    rcases hak : env.accessKeyAuth with tokA | eA
    · simp [authenticate, specDetect, detectionOrderSpec, mechanismSucceeds,
        AuthResult.isFail, hak, List.find?, AccessKey, AWSIAM, AzureAD, GCP, K8S,
        UniversalIdentity]
    · rcases haws : env.awsAuth with tokB | eB
      · simp [authenticate, specDetect, detectionOrderSpec, mechanismSucceeds,
          AuthResult.isFail, hak, haws, List.find?, AccessKey, AWSIAM, AzureAD, GCP,
          K8S, UniversalIdentity]
      · rcases haz : env.azureAuth with tokC | eC
        · simp [authenticate, specDetect, detectionOrderSpec, mechanismSucceeds,
            AuthResult.isFail, hak, haws, haz, List.find?, AccessKey, AWSIAM, AzureAD,
            GCP, K8S, UniversalIdentity]
        · rcases hgcp : env.gcpAuth with tokD | eD
          · simp [authenticate, specDetect, detectionOrderSpec, mechanismSucceeds,
              AuthResult.isFail, hak, haws, haz, hgcp, List.find?, AccessKey, AWSIAM,
              AzureAD, GCP, K8S, UniversalIdentity]
          · rcases hk8 : env.k8sAuth with tokE | eE
            · simp [authenticate, specDetect, detectionOrderSpec, mechanismSucceeds,
                AuthResult.isFail, hak, haws, haz, hgcp, hk8, List.find?, AccessKey,
                AWSIAM, AzureAD, GCP, K8S, UniversalIdentity]
            · rcases huid : env.uidRotate c.akeylessUIDInitToken with eU | tU
              · simp [authenticate, specDetect, detectionOrderSpec, mechanismSucceeds,
                  AuthResult.isFail, hak, haws, haz, hgcp, hk8, huid, List.find?,
                  AccessKey, AWSIAM, AzureAD, GCP, K8S, UniversalIdentity]
              · by_cases htU : tU = ""
                · simp [authenticate, specDetect, detectionOrderSpec, mechanismSucceeds,
                    AuthResult.isFail, hak, haws, haz, hgcp, hk8, huid, htU, List.find?,
                    AccessKey, AWSIAM, AzureAD, GCP, K8S, UniversalIdentity]
                · have hb : (tU == "") = false := beq_eq_false_iff_ne.mpr htU
                  simp [authenticate, specDetect, detectionOrderSpec, mechanismSucceeds,
                    AuthResult.isFail, hak, haws, haz, hgcp, hk8, huid, htU, hb,
                    List.find?, AccessKey, AWSIAM, AzureAD, GCP, K8S, UniversalIdentity]
  · intro parseObjects env authEnv params secret tp perm d1 d2 st ps m hps hperm
      hfail htp hsecs
    have hne := parseParameters_accessType_ne parseObjects env params secret d1 d2 ps hps
    subst hperm
    simp only [Parse, hps]
    rw [if_neg hne]
    rcases hd : detectAccessType authEnv ps st with ⟨det, st', trace⟩
    simp [finishParse, validate, htp, hsecs]

/-- C6 (counterexample): with a gateway whose rotate operation returns an
empty token, two rotation attempts occur across the runner's runs — the
first errors, yet the runner invokes the loop again and a second attempt is
made — contradicting "the refresh loop terminates with that error rather
than retrying"; the token is left at its pre-rotation value both times. -/
theorem c6_rotation_counterexample :
    runForeverUID envEmptyRotate ⟨"init"⟩ [[LoopEvent.tick], [LoopEvent.tick]] =
      (⟨"init"⟩, [.errored "rotated uid token returned empty",
                  .errored "rotated uid token returned empty"], 2) :=
  rfl

/-- C6 (amended): when rotation returns an empty token, the rotation
operation returns the RotationError and leaves the shared token unchanged
(reads keep returning the pre-rotation value), and the current refresh-loop
run terminates with that error; but the surrounding runner
(runForeverWithContext) logs it and starts a fresh loop run on its next
tick, so rotation is retried rather than stopped for good. -/
theorem c6_rotation_amended (env : AuthEnv) (st : AuthState) (evs : List LoopEvent)
    (rest : List (List LoopEvent))
    (h : env.uidRotate st.akeylessAuthToken = .ok "") :
    rotateUIDToken env st = (.error "rotated uid token returned empty", st) ∧
    uidRotationLoop env st (.tick :: evs) =
      (.errored "rotated uid token returned empty", st, 1) ∧
    runForeverUID env st ((LoopEvent.tick :: evs) :: rest) =
      ((runForeverUID env st rest).1,
        .errored "rotated uid token returned empty" :: (runForeverUID env st rest).2.1,
        1 + (runForeverUID env st rest).2.2) := by
  have h1 : rotateUIDToken env st = (.error "rotated uid token returned empty", st) := by
    simp only [rotateUIDToken, GetAuthToken]
    rw [h]
    simp
  have h2 : uidRotationLoop env st (.tick :: evs) =
      (.errored "rotated uid token returned empty", st, 1) := by
    simp [uidRotationLoop, h1]
  refine ⟨h1, h2, ?_⟩
  simp only [runForeverUID, h2]

/-- C6 (witness): the amended statement at the concrete empty-rotating
gateway. -/
theorem c6_rotation_amended_witness :
    rotateUIDToken envEmptyRotate ⟨"init"⟩ =
      (.error "rotated uid token returned empty", ⟨"init"⟩) ∧
    uidRotationLoop envEmptyRotate ⟨"init"⟩ [LoopEvent.tick] =
      (.errored "rotated uid token returned empty", ⟨"init"⟩, 1) ∧
    runForeverUID envEmptyRotate ⟨"init"⟩ [[LoopEvent.tick], [LoopEvent.tick]] =
      ((runForeverUID envEmptyRotate ⟨"init"⟩ [[LoopEvent.tick]]).1,
        .errored "rotated uid token returned empty" ::
          (runForeverUID envEmptyRotate ⟨"init"⟩ [[LoopEvent.tick]]).2.1,
        1 + (runForeverUID envEmptyRotate ⟨"init"⟩ [[LoopEvent.tick]]).2.2) :=
  c6_rotation_amended envEmptyRotate ⟨"init"⟩ [] [[LoopEvent.tick]] rfl

/-- C7 (counterexample): a failing detection leaves the shared AuthToken
holding the configured UID init token — credential material installed
during the failed Universal-Identity attempt — and the request is not
aborted: config resolution still succeeds. -/
theorem c7_detection_state_counterexample :
    detectAccessType envAllFail psUnpinnedUID ⟨""⟩ =
      ("", ⟨"init-tok"⟩, [AccessKey, AWSIAM, AzureAD, GCP, K8S, UniversalIdentity]) ∧
    Parse parseObjectsEx [] envAllFail paramsUnpinnedUID none "/some/path" (.ok 420)
        "gw-default" "mount-default" ⟨""⟩ =
      (.ok cfgUnpinnedUID, ⟨"init-tok"⟩,
        [AccessKey, AWSIAM, AzureAD, GCP, K8S, UniversalIdentity]) :=
  ⟨rfl, rfl⟩

/-- Whether the Universal-Identity attempt of detection fails: rotating the
configured init token errors or returns an empty token. -/
def uidAttemptFails (env : AuthEnv) (c : Parameters) : Bool :=
  match env.uidRotate c.akeylessUIDInitToken with
  | .error _ => true
  | .ok t => t == ""

/-- C7 (amended): when every mechanism fails, detection returns empty after
attempting the full chain, and the shared AuthToken is left holding the
configured UID init token written during the Universal-Identity attempt —
partial authentication state does remain installed (and, per the C7
counterexample, the request is not aborted). -/
theorem c7_detection_state_amended (env : AuthEnv) (c : Parameters) (st : AuthState)
    (hid : c.akeylessAccessID ≠ "")
    (h1 : env.accessKeyAuth.isFail = true) (h2 : env.awsAuth.isFail = true)
    (h3 : env.azureAuth.isFail = true) (h4 : env.gcpAuth.isFail = true)
    (h5 : env.k8sAuth.isFail = true) (h6 : uidAttemptFails env c = true) :
    detectAccessType env c st =
      ("", { akeylessAuthToken := c.akeylessUIDInitToken },
        [AccessKey, AWSIAM, AzureAD, GCP, K8S, UniversalIdentity]) := by
  unfold detectAccessType authWithAccessKey authWithAWS authWithAzure authWithGCP
    authWithK8S rotateUIDToken GetAuthToken setAuthToken
  rw [if_neg hid]
  rcases hak : env.accessKeyAuth with tokA | eA
  · rw [hak] at h1; simp [AuthResult.isFail] at h1
  · rcases haws : env.awsAuth with tokB | eB
    · rw [haws] at h2; simp [AuthResult.isFail] at h2
    · rcases haz : env.azureAuth with tokC | eC
      · rw [haz] at h3; simp [AuthResult.isFail] at h3
      · rcases hgcp : env.gcpAuth with tokD | eD
        · rw [hgcp] at h4; simp [AuthResult.isFail] at h4
        · rcases hk8 : env.k8sAuth with tokE | eE
          · rw [hk8] at h5; simp [AuthResult.isFail] at h5
          · rcases huid : env.uidRotate c.akeylessUIDInitToken with eU | tU
            · simp [authenticate, huid]
            · unfold uidAttemptFails at h6
              rw [huid] at h6
              simp only [beq_iff_eq] at h6
              simp [authenticate, huid, h6]

/-- C7 (witness): the amended statement at the concrete all-failing oracle
and config. -/
theorem c7_detection_state_amended_witness :
    detectAccessType envAllFail psUnpinnedUID ⟨"pre"⟩ =
      ("", { akeylessAuthToken := "init-tok" },
        [AccessKey, AWSIAM, AzureAD, GCP, K8S, UniversalIdentity]) :=
  c7_detection_state_amended envAllFail psUnpinnedUID ⟨"pre"⟩ (by decide) rfl rfl
    rfl rfl rfl rfl

end Akeyless
